import Mathlib

/-!
Verification development for the exquisite-corpse game backend.

The repository contains several iterations of the same modules.  The
definitions below are shallow embeddings of the concrete JavaScript
functions, with a suffix identifying the iteration they are translated
from:

* `...CU`  — `src/canvas-utils.js` (first module in the file);
* `...P7`  — `src/unnamed/part_007` (first module in the file);
* `...P2`  — `src/unnamed/part_002` (the most evolved game handler:
  reconnection grace period, canvas assignments, segment history);
* `...GH`  — `src/game-handlers.js` (second module in the file, the
  handler with `canvasSegments` and an explicit `advanceSegment`);
* `...P1`  — `src/unnamed/part_001` (the handler with the
  stale-segment check).

Image data URLs are modelled at the level the game logic observes them:
a data URL is either the empty/absent string, a decodable image with a
width, a height and a blankness bit, or an undecodable string (the
`canvas` library fires `onerror` on it).  Pixel-level compositing is
external to the repository; drawing is modelled by the dimensions of
each draw call and whether the drawn content is blank.
-/

/-- Model of an image data-URL string as the compositor observes it:
absent/empty (falsy in JS), a decodable image (width, height, and
whether every pixel is transparent), or an undecodable string. -/
inductive DataUrl where
  | empty : DataUrl
  | img : Nat → Nat → Bool → DataUrl
  | bad : Nat → DataUrl
deriving DecidableEq, Repr

/-- Width of a decoded image data URL (0 for non-images). -/
def DataUrl.w : DataUrl → Nat
  | .img w _ _ => w
  | _ => 0

/-- Height of a decoded image data URL (0 for non-images). -/
def DataUrl.h : DataUrl → Nat
  | .img _ h _ => h
  | _ => 0

/-- Whether the data URL decodes to a fully transparent image. -/
def DataUrl.isBlankD : DataUrl → Bool
  | .img _ _ b => b
  | _ => false

/-- Whether the data URL is a decodable image. -/
def DataUrl.isImg : DataUrl → Bool
  | .img _ _ _ => true
  | _ => false

/-- Whether the data URL is an undecodable string. -/
def DataUrl.isBad : DataUrl → Bool
  | .bad _ => true
  | _ => false

/-- Data URL of `createBlankCanvas width height` from `part_007`:
a transparent canvas of the given dimensions. -/
def createBlankCanvas (w h : Nat) : DataUrl := .img w h true

/-- One `ctx.drawImage`/`ctx.fillRect` call recorded while building a
composite: vertical offset, drawn width and height, and whether the
drawn content is blank (a red placeholder rectangle is not blank). -/
structure DrawOp where
  y : Nat
  w : Nat
  h : Nat
  blank : Bool
deriving DecidableEq, Repr

/-- The canvas produced by a combine call: its dimensions and the list
of draw calls, in execution order, that painted it. -/
structure Composite where
  width : Nat
  height : Nat
  draws : List DrawOp
deriving DecidableEq, Repr

/-- A composite is blank when no draw call put opaque pixels on it. -/
def Composite.isBlank (c : Composite) : Bool :=
  c.draws.all fun d => d.blank || d.w == 0 || d.h == 0

/-- The `toDataURL` of a composite canvas. -/
def Composite.toDataUrl (c : Composite) : DataUrl :=
  .img c.width c.height c.isBlank

/-- Result of a combine call: the empty string (returned when there is
nothing to combine) or a composite canvas. -/
inductive CombineResult where
  | emptyStr : CombineResult
  | composite : Composite → CombineResult
deriving DecidableEq, Repr

/-- Data URL delivered by a `CombineResult` to the surrounding game
code (the empty string stays the empty string). -/
def CombineResult.toUrl : CombineResult → DataUrl
  | .emptyStr => .empty
  | .composite c => c.toDataUrl

/-- A loaded `Image` object in the `canvas-utils.js` combine loop. -/
structure ImgData where
  w : Nat
  h : Nat
  blank : Bool
deriving DecidableEq, Repr

/-- Loading phase of `combineCanvases` in `canvas-utils.js`: falsy
entries are skipped, a decodable entry is pushed, and a decode failure
rejects the promise, which the caller rethrows. -/
def loadAllCU : List DataUrl → Except Unit (List ImgData)
  | [] => .ok []
  | .empty :: rest => loadAllCU rest
  | .img w h b :: rest =>
    match loadAllCU rest with
    | .ok l => .ok (⟨w, h, b⟩ :: l)
    | .error e => .error e
  | .bad _ :: _ => .error ()

/-- Drawing phase of `combineCanvases` in `canvas-utils.js`: each image
is drawn at the running vertical offset, stretched to the canvas width
and keeping its own height. -/
def drawStackCU : List ImgData → Nat → Nat → List DrawOp
  | [], _, _ => []
  | i :: rest, maxW, y => ⟨y, maxW, i.h, i.blank⟩ :: drawStackCU rest maxW (y + i.h)

/-- The `combineCanvases` of `src/canvas-utils.js`: stacks the decodable
inputs vertically on a canvas of the maximal width and summed height;
a decode failure propagates as a thrown error. -/
def combineCanvasesCU (urls : List DataUrl) : Except Unit CombineResult :=
  if urls.isEmpty then .ok .emptyStr
  else
    match loadAllCU urls with
    | .error e => .error e
    | .ok imgs =>
      if imgs.isEmpty then .ok .emptyStr
      else
        let maxW := imgs.foldl (fun m i => max m i.w) 0
        let totalH := imgs.foldl (fun s i => s + i.h) 0
        .ok (.composite ⟨maxW, totalH, drawStackCU imgs maxW 0⟩)

/-- A loaded image in the `part_007` combine loop; `isBroken` is the
flag the code attaches to a placeholder created after `onerror`. -/
structure P7Img where
  w : Nat
  h : Nat
  blank : Bool
  isBroken : Bool
deriving DecidableEq, Repr

/-- Loading phase of the first `combineCanvases` of `part_007`: a falsy
entry becomes a blank 800x150 placeholder, a decode failure becomes a
broken 800x150 placeholder, and nothing is ever thrown. -/
def loadAllP7 : List DataUrl → List P7Img
  | [] => []
  | .empty :: rest => ⟨800, 150, true, false⟩ :: loadAllP7 rest
  | .img w h b :: rest => ⟨w, h, b, false⟩ :: loadAllP7 rest
  | .bad _ :: rest => ⟨800, 150, true, true⟩ :: loadAllP7 rest

/-- Drawing phase of the first `combineCanvases` of `part_007`: broken
or zero-sized images are painted as a red (non-blank) rectangle of
height `img.height || 150`; others are drawn stretched to the canvas
width. -/
def drawStackP7 : List P7Img → Nat → Nat → List DrawOp
  | [], _, _ => []
  | i :: rest, maxW, y =>
    if i.isBroken || i.w == 0 || i.h == 0 then
      let ph := if i.h = 0 then 150 else i.h
      ⟨y, maxW, ph, false⟩ :: drawStackP7 rest maxW (y + ph)
    else
      ⟨y, maxW, i.h, i.blank⟩ :: drawStackP7 rest maxW (y + i.h)

/-- The first `combineCanvases` of `src/unnamed/part_007`: every input
slot yields exactly one image (placeholders for missing or broken
entries), with fallback dimensions when the accumulated ones are 0; the
function has no throw path. -/
def combineCanvasesP7 (urls : List DataUrl) : CombineResult :=
  if urls.isEmpty then .emptyStr
  else
    let imgs := loadAllP7 urls
    if imgs.isEmpty then .emptyStr
    else
      let maxW0 := imgs.foldl (fun m i => max m i.w) 0
      let totalH0 := imgs.foldl (fun s i => s + i.h) 0
      let maxW := if maxW0 = 0 then 800 else maxW0
      let totalH := if totalH0 = 0 then imgs.length * 150 else totalH0
      .composite ⟨maxW, totalH, drawStackP7 imgs maxW 0⟩

/-- Overlay loop of `overlayCanvases` in `canvas-utils.js`: each
decodable image is drawn scaled onto the whole target frame; a decode
failure rejects and is rethrown. -/
def overlayLoopCU : List DataUrl → Nat → Nat → Bool → Except Unit DataUrl
  | [], tw, th, blankAcc => .ok (.img tw th blankAcc)
  | .empty :: rest, tw, th, b => overlayLoopCU rest tw th b
  | .img _ _ ib :: rest, tw, th, b => overlayLoopCU rest tw th (b && ib)
  | .bad _ :: _, _, _, _ => .error ()

/-- The `overlayCanvases` of `src/canvas-utils.js`: empty input or
non-positive target dimensions yield the empty string; otherwise all
inputs are drawn scaled onto one cleared target frame. -/
def overlayCanvasesCU (urls : List DataUrl) (tw th : Nat) :
    Except Unit DataUrl :=
  if urls.isEmpty then .ok .empty
  else if tw = 0 || th = 0 then .ok .empty
  else overlayLoopCU urls tw th true

/-- Model of `createCanvasWithBottomPeek` (the commented-out source in
`part_007`): a frame of the target size whose bottom strip shows the
source image; on a decode failure a blank frame is returned.  Blankness
of the strip is approximated by the blankness of the source. -/
def createCanvasWithBottomPeek (src : DataUrl) (_peekH tw th : Nat) :
    DataUrl :=
  match src with
  | .img _ _ b => .img tw th b
  | _ => .img tw th true

/-- Association-list lookup, modelling a JavaScript object property
read `obj[k]` (returns `undefined`, i.e. `none`, when absent). -/
def alGet {κ α : Type} [BEq κ] (l : List (κ × α)) (k : κ) : Option α :=
  (l.find? (fun p => p.1 == k)).map (fun p => p.2)

/-- Association-list write, modelling a JavaScript object property
assignment `obj[k] = v` (overwrites in place, otherwise appends). -/
def alSet {κ α : Type} [BEq κ] (l : List (κ × α)) (k : κ) (v : α) :
    List (κ × α) :=
  if (l.find? (fun p => p.1 == k)).isSome then
    l.map (fun p => if p.1 == k then (k, v) else p)
  else l ++ [(k, v)]

/-- Status of a `part_002` game room. -/
inductive Status where
  | waiting : Status
  | playing : Status
  | completed : Status
deriving DecidableEq, Repr

/-- A `playerObjects` entry of a `part_002` game room. -/
structure PlayerObj where
  id : String
  name : String
  isDisconnected : Bool
  reconnectAttempts : Nat
deriving DecidableEq, Repr

/-- A `segmentHistory` entry of a `part_002` game room. -/
structure Submission where
  playerId : String
  dataURL : DataUrl
  redLineY : Option Int
deriving DecidableEq, Repr

/-- The game-room document of `src/unnamed/part_002` (volatile fields
only; `createdAt` and the in-memory `disconnectionTimers` map are not
part of the game state the claims are about — the timer is modelled by
the separate `graceTimerFireP2` transition). -/
structure GameRoomP2 where
  gameCode : String
  players : List String
  playerObjects : List PlayerObj
  playerCount : Nat
  status : Status
  currentSegmentIndex : Nat
  submittedPlayers : List String
  activeCanvasStates : List DataUrl
  canvasAssignments : List (String × Nat)
  segmentHistory : List (Nat × List (String × Submission))
  currentSegmentSubmissions : List (String × DataUrl)
  finalArtworks : List DataUrl
deriving DecidableEq, Repr

/-- First `playerObjects` record with the given id. -/
def findPO (r : GameRoomP2) (pid : String) : Option PlayerObj :=
  r.playerObjects.find? (fun p => p.id == pid)

/-- An outbound WebSocket message as the handlers build it; fields that
a given message type does not carry are `none`. -/
structure OutMsg where
  recipient : String
  mtype : String
  text : String
  status : Option Status
  currentSegmentIndex : Option Nat
  playerCount : Option Nat
  canDraw : Option Bool
  isWaitingForOthers : Option Bool
  canvasData : Option DataUrl
deriving DecidableEq, Repr

/-- Plain error reply carrying only a message text. -/
def errMsg (recipient text : String) : OutMsg :=
  ⟨recipient, "error", text, none, none, none, none, none, none⟩

/-- An inbound `submitSegment` message (the fields the client sends;
`part_002` reads only `canvasData` and `redLineY` and ignores
`segmentIndex`). -/
structure SubmitMsg where
  canvasData : DataUrl
  redLineY : Option Int
  segmentIndex : Option Nat
deriving DecidableEq, Repr

/-- Canvas data URL sent to a client in a `part_002` broadcast:
`activeCanvasStates[canvasAssignments[playerId]]` (undefined when the
player has no assignment). -/
def canvasForP2 (r : GameRoomP2) (pid : String) : Option DataUrl :=
  match alGet r.canvasAssignments pid with
  | some i => r.activeCanvasStates[i]?
  | none => none

/-- The `gameJoined` view `part_002` broadcasts after a join (lines
391-410): `canDraw` is the negation of membership in
`submittedPlayers`; the room status is not consulted. -/
def gameJoinedMsgP2 (r : GameRoomP2) (pid : String) : OutMsg :=
  ⟨pid, "gameJoined", "", some r.status, some r.currentSegmentIndex,
    some r.playerCount,
    some (!(r.submittedPlayers.contains pid)),
    some (r.submittedPlayers.contains pid),
    canvasForP2 r pid⟩

/-- The `reconnected` reply `part_002` sends to a player whose join is
treated as a reconnect. -/
def reconnectedMsgP2 (r : GameRoomP2) (pid : String) : OutMsg :=
  ⟨pid, "reconnected", "", some r.status, some r.currentSegmentIndex,
    some r.playerCount,
    some (!(r.submittedPlayers.contains pid)),
    some (r.submittedPlayers.contains pid),
    canvasForP2 r pid⟩

/-- The `playerReconnected` notification sent to the other members. -/
def playerReconnectedMsgP2 (r : GameRoomP2) (pid : String) : OutMsg :=
  ⟨pid, "playerReconnected", "", some r.status, none,
    some r.playerCount, none, none, none⟩

/-- The `gameUpdate` view broadcast after an advance in `part_002`
(lines 509-536): here `canDraw` additionally requires the room not to
be completed. -/
def gameUpdateMsgP2 (r : GameRoomP2) (pid : String) : OutMsg :=
  let isCompleted := r.status == Status.completed
  ⟨pid, "gameUpdate", "", some r.status, some r.currentSegmentIndex,
    some r.playerCount,
    some (!isCompleted && !(r.submittedPlayers.contains pid)),
    some (if isCompleted then false else r.submittedPlayers.contains pid),
    if isCompleted then none else canvasForP2 r pid⟩

/-- New-player path of the `joinGame` handler of `part_002` (lines
332-411): the player is appended whenever not already a member — there
is no room-full check — then the room transitions to `playing` when the
member count reaches exactly 2, and the per-client views are broadcast
to every connection bound to the room. -/
def joinNewP2 (room : GameRoomP2) (pid pname : String)
    (clients : List String) : GameRoomP2 × List OutMsg :=
  let r1 :=
    if room.players.contains pid then room
    else
      { room with
        players := room.players ++ [pid],
        playerObjects := room.playerObjects ++ [⟨pid, pname, false, 0⟩],
        playerCount := (room.players ++ [pid]).length }
  let r2 :=
    if r1.playerCount = 2 && r1.status == Status.waiting then
      { r1 with
        status := Status.playing,
        canvasAssignments :=
          [(r1.players.getD 0 "", 0), (r1.players.getD 1 "", 1)] }
    else r1
  (r2, clients.map (fun c => gameJoinedMsgP2 r2 c))

/-- The `joinGame` handler of `part_002` (lines 236-411).  `clients` is
the list of player ids of the open connections bound to the room.  A
missing or completed room is ignored; a member marked disconnected is
reconnected in place; otherwise the new-player path runs. -/
def joinGameP2 (roomOpt : Option GameRoomP2) (pid pname : String)
    (clients : List String) : Option GameRoomP2 × List OutMsg :=
  match roomOpt with
  | none => (none, [])
  | some room =>
    if room.status = Status.completed then (some room, [])
    else
      match findPO room pid with
      | some po =>
        if po.isDisconnected then
          let r1 :=
            { room with
              playerObjects := room.playerObjects.map fun q =>
                if q.id == pid then
                  { q with isDisconnected := false, reconnectAttempts := 0 }
                else q }
          (some r1,
            reconnectedMsgP2 r1 pid ::
              (clients.filter (fun c => c != pid)).map
                (fun _ => playerReconnectedMsgP2 r1 pid))
        else
          let res := joinNewP2 room pid pname clients
          (some res.1, res.2)
      | none =>
        let res := joinNewP2 room pid pname clients
        (some res.1, res.2)

/-- The `submitSegment` handler of `part_002` (lines 413-545).  The
message's `segmentIndex` field is never read; a non-`playing` room is
silently ignored; a duplicate submitter is not pushed again but the
canvas and history writes still run; when both players have submitted
the advance logic runs in place (lines 444-539). -/
def submitSegmentP2 (room : GameRoomP2) (pid : String) (msg : SubmitMsg)
    (clients : List String) : GameRoomP2 × List OutMsg :=
  if room.status ≠ Status.playing then (room, [])
  else
    let r1 :=
      if room.submittedPlayers.contains pid then room
      else { room with submittedPlayers := room.submittedPlayers ++ [pid] }
    let r2 :=
      match alGet r1.canvasAssignments pid with
      | some i =>
        { r1 with activeCanvasStates := r1.activeCanvasStates.set i msg.canvasData }
      | none => r1
    let seg := r2.currentSegmentIndex
    let inner := (alGet r2.segmentHistory seg).getD []
    let newInner := alSet inner pid ⟨pid, msg.canvasData, msg.redLineY⟩
    let r3 := { r2 with segmentHistory := alSet r2.segmentHistory seg newInner }
    if r3.submittedPlayers.length = 2 then
      let isFinal := seg + 1 ≥ 4
      let r4 :=
        if isFinal then
          { r3 with
            status := Status.completed,
            finalArtworks :=
              [r3.activeCanvasStates.getD 0 DataUrl.empty,
               r3.activeCanvasStates.getD 1 DataUrl.empty] }
        else
          { r3 with
            currentSegmentIndex := seg + 1,
            submittedPlayers := [],
            currentSegmentSubmissions := [],
            canvasAssignments := r3.canvasAssignments.map
              (fun p => (p.1, if p.2 = 0 then 1 else 0)) }
      (r4, clients.map (fun c => gameUpdateMsgP2 r4 c))
    else (r3, [])

/-- The `playerTemporarilyDisconnected` notification `part_002` sends
to the remaining members on a transport close. -/
def tempDisconnectMsgP2 (r : GameRoomP2) (recipient : String) : OutMsg :=
  ⟨recipient, "playerTemporarilyDisconnected", "", some r.status, none,
    some r.playerCount, none, none, none⟩

/-- The `playerPermanentlyDisconnected` notification broadcast when the
grace timer evicts a player. -/
def permDisconnectMsgP2 (r : GameRoomP2) (recipient : String) : OutMsg :=
  ⟨recipient, "playerPermanentlyDisconnected", "", some r.status, some 0,
    some r.playerCount, some false, some false,
    some (createBlankCanvas 1080 1920)⟩

/-- Result of the `part_002` close handler: the stored room (`none`
when the room document was deleted), whether a grace timer was started
for the closing player, and the notifications sent. -/
structure CloseResultP2 where
  room : Option GameRoomP2
  timerStarted : Bool
  msgs : List OutMsg
deriving DecidableEq, Repr

/-- Mark the given player disconnected and bump `reconnectAttempts` by
one, as `handleWebSocketClose` of `part_002` does (lines 670-674). -/
def markDisconnected (pos : List PlayerObj) (pid : String) : List PlayerObj :=
  pos.map fun p =>
    if p.id == pid then
      { p with isDisconnected := true,
               reconnectAttempts := p.reconnectAttempts + 1 }
    else p

/-- The `handleWebSocketClose` of `part_002` (lines 623-821).  For a
completed room the player is only marked disconnected and the room is
deleted once every member is disconnected; for a waiting or playing
room the player is marked disconnected, the attempt counter is bumped,
a 15-second grace timer is registered, and the remaining members are
notified — nothing is removed yet. -/
def handleCloseP2 (room : GameRoomP2) (pid : String)
    (clients : List String) : CloseResultP2 :=
  if room.status = Status.completed then
    let r1 := { room with playerObjects := markDisconnected room.playerObjects pid }
    if r1.playerObjects.all (fun p => p.isDisconnected) then ⟨none, false, []⟩
    else ⟨some r1, false, []⟩
  else
    let r1 := { room with playerObjects := markDisconnected room.playerObjects pid }
    ⟨some r1, true,
      (clients.filter (fun c => c != pid)).map (fun c => tempDisconnectMsgP2 r1 c)⟩

/-- The grace-timer callback of `handleWebSocketClose` in `part_002`
(lines 682-782), applied to the room re-fetched when the timer fires
(`none` when the room was deleted meanwhile).  Only a player still
marked disconnected with `reconnectAttempts >= 5` is removed; in every
other case the stored room is left exactly as it was.  When removal
leaves the room non-empty it is reset to a fresh waiting state. -/
def graceTimerFireP2 (store : Option GameRoomP2) (pid : String)
    (clients : List String) : Option GameRoomP2 × List OutMsg :=
  match store with
  | none => (none, [])
  | some r =>
    match r.playerObjects.find? (fun p => p.id == pid && p.isDisconnected) with
    | some po =>
      if po.reconnectAttempts ≥ 5 then
        let players1 := r.players.filter (fun q => q != pid)
        let r1 :=
          { r with
            players := players1,
            playerObjects := r.playerObjects.filter (fun p => p.id != pid),
            playerCount := players1.length }
        if r1.playerCount = 0 then (none, [])
        else
          let r2 :=
            { r1 with
              status := Status.waiting,
              submittedPlayers := [],
              currentSegmentIndex := 0,
              activeCanvasStates :=
                [createBlankCanvas 1080 1920, createBlankCanvas 1080 1920],
              canvasAssignments := [],
              segmentHistory := [],
              finalArtworks := [] }
          (some r2, clients.map (fun c => permDisconnectMsgP2 r2 c))
      else (some r, [])
    | none => (some r, [])

/-- The room state written back by a `part_002` `submitSegment`
transaction computed from a given snapshot of the stored room. -/
def submitTxnP2 (pid : String) (msg : SubmitMsg) (clients : List String)
    (snapshot : GameRoomP2) : GameRoomP2 :=
  (submitSegmentP2 snapshot pid msg clients).1

/-- Scheduler events for two concurrent read-modify-write handlers on
the same room document: each handler reads a snapshot of the store and
later writes back the state computed from its own snapshot, exactly the
`findOne` / `updateOne` pattern of the handlers. -/
inductive RmwEv where
  | read1 : RmwEv
  | write1 : RmwEv
  | read2 : RmwEv
  | write2 : RmwEv
deriving DecidableEq, Repr

/-- Store plus the snapshots the two in-flight handlers have read. -/
structure RmwState where
  store : GameRoomP2
  snap1 : Option GameRoomP2
  snap2 : Option GameRoomP2
deriving DecidableEq, Repr

/-- One scheduler step: a read copies the store into the handler's
snapshot; a write stores the state the handler computed from its
snapshot (no-op if the handler has not read yet). -/
def rmwStep (t1 t2 : GameRoomP2 → GameRoomP2) (st : RmwState) :
    RmwEv → RmwState
  | .read1 => { st with snap1 := some st.store }
  | .read2 => { st with snap2 := some st.store }
  | .write1 =>
    match st.snap1 with
    | some s => { st with store := t1 s }
    | none => st
  | .write2 =>
    match st.snap2 with
    | some s => { st with store := t2 s }
    | none => st

/-- Final store contents after running two read-modify-write handlers
under the given interleaving. -/
def runSched (t1 t2 : GameRoomP2 → GameRoomP2) (evs : List RmwEv)
    (s0 : GameRoomP2) : GameRoomP2 :=
  (evs.foldl (rmwStep t1 t2) ⟨s0, none, none⟩).store

/-- Status values used by the `game-handlers.js` and `part_001`
iterations (`waiting` / `in-progress` / `completed`). -/
inductive GHStatus where
  | waiting : GHStatus
  | inProgress : GHStatus
  | completed : GHStatus
deriving DecidableEq, Repr

/-- A `canvasSegments` entry: individual player drawings carry a
`playerId` and `isCombined: false`; combined entries carry
`isCombined: true` and no player id. -/
structure SegEntry where
  segmentIndex : Nat
  playerId : Option String
  dataUrl : DataUrl
  isCombined : Bool
deriving DecidableEq, Repr

/-- Insert a segment entry into a list sorted by `segmentIndex`
ascending, modelling `Array.prototype.sort` with the comparator
`a.segmentIndex - b.segmentIndex`. -/
def insertBySeg (e : SegEntry) : List SegEntry → List SegEntry
  | [] => [e]
  | x :: xs =>
    if e.segmentIndex ≤ x.segmentIndex then e :: x :: xs
    else x :: insertBySeg e xs

/-- Sort segment entries by `segmentIndex` ascending. -/
def sortBySeg (l : List SegEntry) : List SegEntry :=
  l.foldr insertBySeg []

/-- Game-room document of the second `game-handlers.js` iteration
(lines 324-1093): submissions accumulate in `canvasSegments` and the
final artwork is one combined image. -/
structure GameRoomGH where
  gameCode : String
  players : List String
  playerObjects : List (String × String)
  playerCount : Nat
  status : GHStatus
  currentSegmentIndex : Nat
  submittedPlayers : List String
  canvasSegments : List SegEntry
  finalArtwork : Option DataUrl
deriving DecidableEq, Repr

/-- The `submissionStatus` reply sent to the submitter. -/
def submissionStatusMsgGH (pid : String) : OutMsg :=
  ⟨pid, "submissionStatus", "", none, none, none, some false, some true, none⟩

/-- The `playerSubmitted` notification sent to the other members. -/
def playerSubmittedMsgGH (recipient : String) : OutMsg :=
  ⟨recipient, "playerSubmitted", "", none, none, none, some true,
    some false, none⟩

/-- The `gameOver` broadcast of `advanceSegment`. -/
def gameOverMsgGH (recipient : String) (seg : Nat)
    (finalArt : Option DataUrl) : OutMsg :=
  ⟨recipient, "gameOver", "", none, some seg, none, some false,
    some false, finalArt⟩

/-- The `segmentAdvanced` broadcast of `advanceSegment`. -/
def segmentAdvancedMsgGH (recipient : String) (seg : Nat)
    (canvas : DataUrl) : OutMsg :=
  ⟨recipient, "segmentAdvanced", "", none, some seg, none, some true,
    some false, some canvas⟩

/-- The `advanceSegment` of `game-handlers.js` (lines 810-1008): the
just-finished segment's individual drawings are overlaid into one
combined entry (a blank frame on overlay failure), the index advances
and `submittedPlayers` is cleared; at index 4 the game completes and
all combined entries are stacked into `finalArtwork` (left `null` when
that stacking throws), otherwise a peek frame is prepared and the room
stays `in-progress`. -/
def advanceSegmentGH (room : GameRoomGH) (clients : List String) :
    GameRoomGH × List OutMsg :=
  let drawings :=
    (room.canvasSegments.filter fun s =>
      s.segmentIndex == room.currentSegmentIndex && !s.isCombined).map
      (fun s => s.dataUrl)
  let combinedOverlay : DataUrl :=
    if drawings.length > 0 then
      match overlayCanvasesCU drawings 800 600 with
      | .ok d => d
      | .error _ => createBlankCanvas 800 600
    else createBlankCanvas 800 600
  let r1 :=
    { room with canvasSegments := room.canvasSegments ++
        [SegEntry.mk room.currentSegmentIndex none combinedOverlay true] }
  let r2 :=
    { r1 with currentSegmentIndex := r1.currentSegmentIndex + 1,
              submittedPlayers := [] }
  if r2.currentSegmentIndex ≥ 4 then
    let allCombined :=
      (sortBySeg (r2.canvasSegments.filter fun s => s.isCombined)).map
        (fun s => s.dataUrl)
    let finalArt : Option DataUrl :=
      match combineCanvasesCU allCombined with
      | .ok res => some res.toUrl
      | .error _ => none
    let r3 := { r2 with status := GHStatus.completed, finalArtwork := finalArt }
    (r3, clients.map fun c => gameOverMsgGH c r3.currentSegmentIndex finalArt)
  else
    let fullPrev :=
      (sortBySeg (r2.canvasSegments.filter fun s =>
        s.isCombined && s.segmentIndex < r2.currentSegmentIndex)).map
        (fun s => s.dataUrl)
    let canvasNext : DataUrl :=
      if fullPrev.length > 0 then
        match combineCanvasesCU fullPrev with
        | .ok res => createCanvasWithBottomPeek res.toUrl 100 800 600
        | .error _ => createBlankCanvas 800 600
      else createBlankCanvas 800 600
    let r3 := { r2 with status := GHStatus.inProgress }
    (r3, clients.map fun c => segmentAdvancedMsgGH c r3.currentSegmentIndex canvasNext)

/-- The `submitSegment` case of `game-handlers.js` (lines 571-672): a
falsy `canvasData` is rejected, a duplicate submitter is rejected with
an error reply and the room is left untouched; otherwise the submission
is recorded, the submitter gets a `submissionStatus` reply, and when
every member has submitted `advanceSegment` runs. -/
def submitSegmentGH (room : GameRoomGH) (pid : String)
    (canvasData : DataUrl) (clients : List String) :
    GameRoomGH × List OutMsg :=
  if canvasData = DataUrl.empty then
    (room, [errMsg pid "Invalid submission data."])
  else if room.submittedPlayers.contains pid then
    (room, [errMsg pid "You have already submitted for this segment."])
  else
    let r1 :=
      { room with
        submittedPlayers := room.submittedPlayers ++ [pid],
        canvasSegments := room.canvasSegments ++
          [SegEntry.mk room.currentSegmentIndex (some pid) canvasData false] }
    if r1.submittedPlayers.length = r1.playerCount then
      let res := advanceSegmentGH r1 clients
      (res.1, submissionStatusMsgGH pid :: res.2)
    else
      (r1, submissionStatusMsgGH pid ::
        (clients.filter (fun c => c != pid)).map playerSubmittedMsgGH)

/-- Game-room document of `src/unnamed/part_001` (`currentTurn` is kept
although the submit path no longer uses it). -/
structure GameRoomP1 where
  gameCode : String
  players : List String
  playerObjects : List (String × String)
  playerCount : Nat
  currentTurn : Nat
  canvasSegments : List SegEntry
  currentSegmentIndex : Nat
  submittedPlayers : List String
  status : GHStatus
  finalArtwork : Option DataUrl
deriving DecidableEq, Repr

/-- The `submissionReceived` reply of `part_001` (sent both for a
duplicate submission and for a fresh one). -/
def submissionReceivedMsgP1 (pid text : String) : OutMsg :=
  ⟨pid, "submissionReceived", text, none, none, none, some false,
    some true, none⟩

/-- The `playerSubmitted` notification of `part_001`. -/
def playerSubmittedMsgP1 (recipient : String) : OutMsg :=
  ⟨recipient, "playerSubmitted", "", none, none, none, some true,
    some false, none⟩

/-- The `gameOver` broadcast of the `part_001` `advanceSegment`. -/
def gameOverMsgP1 (recipient : String) (seg : Nat)
    (finalArt : Option DataUrl) : OutMsg :=
  ⟨recipient, "gameOver", "", none, some seg, none, some false,
    some false, finalArt⟩

/-- The `segmentAdvanced` broadcast of the `part_001` `advanceSegment`. -/
def segmentAdvancedMsgP1 (recipient : String) (seg : Nat)
    (canvas : Option DataUrl) : OutMsg :=
  ⟨recipient, "segmentAdvanced", "", none, some seg, none, some true,
    some false, canvas⟩

/-- The `advanceSegment` of `part_001` (lines 597-758): overlays the
finished segment's drawings (errors are caught and leave `null`, in
which case no combined entry is pushed), advances the index, clears the
submissions, and either completes the game with one stacked final
artwork or stays `in-progress`, sending the last combined segment as
the new background. -/
def advanceSegmentP1 (room : GameRoomP1) (clients : List String) :
    GameRoomP1 × List OutMsg :=
  let drawings :=
    (room.canvasSegments.filter fun s =>
      s.segmentIndex == room.currentSegmentIndex && !s.isCombined).map
      (fun s => s.dataUrl)
  let combinedNext : Option DataUrl :=
    if drawings.length > 0 then
      match overlayCanvasesCU drawings 800 600 with
      | .ok d => some d
      | .error _ => none
    else none
  let r1 :=
    match combinedNext with
    | some d =>
      if d = DataUrl.empty then room
      else
        { room with canvasSegments := room.canvasSegments ++
            [SegEntry.mk room.currentSegmentIndex none d true] }
    | none => room
  let r2 :=
    { r1 with currentSegmentIndex := r1.currentSegmentIndex + 1,
              submittedPlayers := [] }
  if r2.currentSegmentIndex ≥ 4 then
    let allCombined :=
      (sortBySeg (r2.canvasSegments.filter fun s => s.isCombined)).map
        (fun s => s.dataUrl)
    let finalArt : Option DataUrl :=
      match combineCanvasesCU allCombined with
      | .ok res => some res.toUrl
      | .error _ => none
    let r3 := { r2 with status := GHStatus.completed, finalArtwork := finalArt }
    (r3, clients.map fun c => gameOverMsgP1 c r3.currentSegmentIndex finalArt)
  else
    let lastCombined :=
      ((r2.canvasSegments.filter fun s =>
        s.isCombined && s.segmentIndex == r2.currentSegmentIndex - 1).map
        (fun s => s.dataUrl)).head?
    let r3 := { r2 with status := GHStatus.inProgress }
    (r3, clients.map fun c =>
      segmentAdvancedMsgP1 c r3.currentSegmentIndex lastCombined)

/-- The `submitSegment` case of `part_001` (lines 283-418): missing
data is rejected, a submission whose `segmentIndex` differs from the
room's `currentSegmentIndex` is rejected with an error reply and no
state change, a duplicate submitter gets an idempotent
`submissionReceived` reply, and otherwise the submission is recorded
and, when every member has submitted, `advanceSegment` runs. -/
def submitSegmentP1 (room : GameRoomP1) (pid : String)
    (canvasData : DataUrl) (segmentIndex : Option Nat)
    (clients : List String) : GameRoomP1 × List OutMsg :=
  if canvasData = DataUrl.empty || segmentIndex = none then
    (room, [errMsg pid "Missing canvas data or segment index."])
  else
    match segmentIndex with
    | none => (room, [errMsg pid "Missing canvas data or segment index."])
    | some si =>
      if room.currentSegmentIndex ≠ si then
        (room, [errMsg pid "It is not the correct segment to submit for."])
      else if room.submittedPlayers.contains pid then
        (room, [submissionReceivedMsgP1 pid
          "You have already submitted for this segment. Waiting for others."])
      else
        let r1 :=
          { room with
            submittedPlayers := room.submittedPlayers ++ [pid],
            canvasSegments := room.canvasSegments ++
              [SegEntry.mk si (some pid) canvasData false] }
        let selfReply := submissionReceivedMsgP1 pid
          "Your segment submitted. Waiting for other players."
        if r1.submittedPlayers.length = r1.playerCount then
          let res := advanceSegmentP1 r1 clients
          (res.1, selfReply :: res.2)
        else
          (r1, selfReply ::
            (clients.filter (fun c => c != pid)).map playerSubmittedMsgP1)

/-- Concrete `part_002` room in the `playing` state with the two
members `P1` and `P2` and no submissions yet. -/
def roomAB : GameRoomP2 :=
  { gameCode := "AB12",
    players := ["P1", "P2"],
    playerObjects := [⟨"P1", "Alice", false, 0⟩, ⟨"P2", "Bob", false, 0⟩],
    playerCount := 2,
    status := Status.playing,
    currentSegmentIndex := 0,
    submittedPlayers := [],
    activeCanvasStates := [createBlankCanvas 1080 1920, createBlankCanvas 1080 1920],
    canvasAssignments := [("P1", 0), ("P2", 1)],
    segmentHistory := [],
    currentSegmentSubmissions := [],
    finalArtworks := [] }

/-- Concrete waiting room holding only its creator `P1`. -/
def roomWaitP2 : GameRoomP2 :=
  { gameCode := "AB12",
    players := ["P1"],
    playerObjects := [⟨"P1", "Alice", false, 0⟩],
    playerCount := 1,
    status := Status.waiting,
    currentSegmentIndex := 0,
    submittedPlayers := [],
    activeCanvasStates := [createBlankCanvas 1080 1920, createBlankCanvas 1080 1920],
    canvasAssignments := [("P1", 0)],
    segmentHistory := [],
    currentSegmentSubmissions := [],
    finalArtworks := [] }

/-- Concrete completed `part_002` room. -/
def roomDoneP2 : GameRoomP2 :=
  { roomAB with
    status := Status.completed,
    currentSegmentIndex := 3,
    submittedPlayers := ["P1", "P2"],
    finalArtworks := [createBlankCanvas 1080 1920, createBlankCanvas 1080 1920] }

/-- Concrete submit message of player `P1` for segment 0. -/
def msgA : SubmitMsg := ⟨.img 1080 1920 false, some 42, some 0⟩

/-- Concrete submit message with different image content. -/
def msgB : SubmitMsg := ⟨.img 500 500 false, some 7, some 0⟩

/-- Concrete submit message carrying the stale segment index 0. -/
def msgStale : SubmitMsg := ⟨.img 1080 1920 false, some 3, some 0⟩

/-- C1: the `joinGame` handler of `part_002` has no room-full check: a
third distinct player joining a full 2-member room is appended to the
players list, so `players.length = 3` and the claimed invariant
`players.length <= 2` is violated by the code (the spec and the
`game-handlers.js` iteration both demand a `RoomFull` rejection, and
`part_002` itself fixes `MAX_PLAYERS = 2`). -/
theorem c1_third_player_joined :
    ((joinGameP2 (some roomAB) "P3" "Eve" ["P1", "P2", "P3"]).1.map
      fun r => (r.players, r.playerCount)) =
      some (["P1", "P2", "P3"], 3) := by
  rfl

/-- C2 counterexample: in the `part_002` submit handler a second
`submitSegment` by a player already in `submittedPlayers` is not a
no-op: the room state changes (the player's active canvas and history
entry are overwritten) and no reply at all is sent, refuting both parts
of the claim at this concrete input. -/
theorem c2_counterexample :
    (submitSegmentP2 (submitSegmentP2 roomAB "P1" msgA []).1 "P1" msgB []).1 ≠
        (submitSegmentP2 roomAB "P1" msgA []).1 ∧
      (submitSegmentP2 (submitSegmentP2 roomAB "P1" msgA []).1 "P1" msgB []).2 = [] := by
  exact ⟨by decide, by rfl⟩

/-- C3 counterexample: a `submitSegment` on a completed `part_002` room
is silently dropped — the handler returns before sending anything, so
the submitter gets no `ConflictError` (nor any other) reply, refuting
the claimed rejection reply at this concrete input. -/
theorem c3_counterexample :
    (submitSegmentP2 roomDoneP2 "P1" msgA ["P1", "P2"]).2 = [] := by
  rfl

/-- C5 counterexample: the `part_002` submit handler never reads the
message's `segmentIndex`: a submission carrying segment index 0 against
a room whose `currentSegmentIndex` is 1 is applied to the current
segment (the state changes) and no `StaleSegment` error is sent. -/
theorem c5_counterexample :
    (submitSegmentP2 { roomAB with currentSegmentIndex := 1 } "P1" msgStale []).1 ≠
        { roomAB with currentSegmentIndex := 1 } ∧
      (submitSegmentP2 { roomAB with currentSegmentIndex := 1 } "P1" msgStale []).2 = [] := by
  exact ⟨by decide, by rfl⟩

/-- C6 counterexample: in a waiting room with a single member the
`part_002` join broadcast computes `canDraw` as the bare negation of
membership in `submittedPlayers`, so the sole member receives
`canDraw = true` where the claim demands `false`. -/
theorem c6_counterexample :
    ((joinGameP2 (some roomWaitP2) "P1" "Alice" ["P1"]).2.map
      fun m => (m.recipient, m.canDraw)) = [("P1", some true)] := by
  rfl

/-- C7 counterexample: the `combineCanvases` of `src/canvas-utils.js`
throws (the promise rejection is rethrown) as soon as one input fails
to decode, refuting the claim that combine never throws. -/
theorem c7_counterexample :
    combineCanvasesCU [DataUrl.bad 0] = Except.error () := by
  rfl

/-- C9: the handlers use an unserialized read-modify-write against the
store.  Running the two members' `submitSegment` transactions of
`part_002` under the interleaving read-read-write-write loses the first
write: the final room still has segment index 0 with only `P2`
recorded, while under either serial order both submissions are counted
and the room advances to segment 1 — so concurrent handling is not
equivalent to any sequential execution. -/
theorem c9_lost_update :
    runSched (submitTxnP2 "P1" msgA ["P1", "P2"]) (submitTxnP2 "P2" msgB ["P1", "P2"])
        [RmwEv.read1, RmwEv.read2, RmwEv.write1, RmwEv.write2] roomAB ≠
      runSched (submitTxnP2 "P1" msgA ["P1", "P2"]) (submitTxnP2 "P2" msgB ["P1", "P2"])
        [RmwEv.read1, RmwEv.write1, RmwEv.read2, RmwEv.write2] roomAB ∧
    runSched (submitTxnP2 "P1" msgA ["P1", "P2"]) (submitTxnP2 "P2" msgB ["P1", "P2"])
        [RmwEv.read1, RmwEv.read2, RmwEv.write1, RmwEv.write2] roomAB ≠
      runSched (submitTxnP2 "P1" msgA ["P1", "P2"]) (submitTxnP2 "P2" msgB ["P1", "P2"])
        [RmwEv.read2, RmwEv.write2, RmwEv.read1, RmwEv.write1] roomAB ∧
    (runSched (submitTxnP2 "P1" msgA ["P1", "P2"]) (submitTxnP2 "P2" msgB ["P1", "P2"])
        [RmwEv.read1, RmwEv.read2, RmwEv.write1, RmwEv.write2] roomAB).submittedPlayers =
      ["P2"] ∧
    (runSched (submitTxnP2 "P1" msgA ["P1", "P2"]) (submitTxnP2 "P2" msgB ["P1", "P2"])
        [RmwEv.read1, RmwEv.write1, RmwEv.read2, RmwEv.write2] roomAB).currentSegmentIndex =
      1 := by
  refine ⟨by decide, by decide, by rfl, by rfl⟩

/-- C4: when the second member submits for a non-final segment in
`part_002`, the advance step increments `currentSegmentIndex` by
exactly 1, empties `submittedPlayers`, and swaps the two members'
canvas assignment, which therefore remains a bijection onto {0,1}. -/
theorem c4_advance_swaps (room : GameRoomP2) (p q : String) (a : Nat)
    (msg : SubmitMsg) (clients : List String)
    (hstatus : room.status = Status.playing)
    (hne : p ≠ q)
    (hsub : room.submittedPlayers = [q])
    (hassign : room.canvasAssignments = [(p, a), (q, 1 - a)])
    (ha : a ≤ 1)
    (hseg : room.currentSegmentIndex + 1 < 4) :
    (submitSegmentP2 room p msg clients).1.currentSegmentIndex =
        room.currentSegmentIndex + 1 ∧
      (submitSegmentP2 room p msg clients).1.submittedPlayers = [] ∧
      (submitSegmentP2 room p msg clients).1.canvasAssignments =
        [(p, 1 - a), (q, a)] ∧
      alGet (submitSegmentP2 room p msg clients).1.canvasAssignments p ≠
        alGet (submitSegmentP2 room p msg clients).1.canvasAssignments q := by
  have hpq : (p == q) = false := by
    simp [hne]
  have hqp : (q == p) = false := by
    simp [Ne.symm hne]
  interval_cases a <;>
    simp [submitSegmentP2, hstatus, hsub, hassign, hpq, hqp, hne, alGet,
      List.find?, Nat.not_le.mpr hseg, hseg]

/-- Concrete room in which `P2` has already submitted for segment 0. -/
def roomC4 : GameRoomP2 := { roomAB with submittedPlayers := ["P2"] }

/-- Witness for C4 at a concrete input: `P1` completes segment 0 and
the room advances with the assignments swapped. -/
theorem c4_advance_swaps_witness :
    (submitSegmentP2 roomC4 "P1" msgA []).1.currentSegmentIndex =
        roomC4.currentSegmentIndex + 1 ∧
      (submitSegmentP2 roomC4 "P1" msgA []).1.submittedPlayers = [] ∧
      (submitSegmentP2 roomC4 "P1" msgA []).1.canvasAssignments =
        [("P1", 1 - 0), ("P2", 0)] ∧
      alGet (submitSegmentP2 roomC4 "P1" msgA []).1.canvasAssignments "P1" ≠
        alGet (submitSegmentP2 roomC4 "P1" msgA []).1.canvasAssignments "P2" :=
  c4_advance_swaps roomC4 "P1" "P2" 0 msgA [] (by rfl) (by decide) (by rfl)
    (by rfl) (by decide) (by decide)

/-- C3 (amended): a `submitSegment` on a completed `part_002` room is
silently ignored — the handler returns before any write or send, so
the room is unchanged and no reply (in particular no `ConflictError`)
is produced; and the advance step that completes a game sets
`finalArtworks` to exactly 2 entries. -/
theorem c3_completed_room :
    (∀ (room : GameRoomP2) (pid : String) (msg : SubmitMsg) (clients : List String),
      room.status = Status.completed →
      submitSegmentP2 room pid msg clients = (room, [])) ∧
    (∀ (room : GameRoomP2) (p q : String) (msg : SubmitMsg) (clients : List String),
      room.status = Status.playing → p ≠ q →
      room.submittedPlayers = [q] →
      room.currentSegmentIndex + 1 ≥ 4 →
      (submitSegmentP2 room p msg clients).1.status = Status.completed ∧
        (submitSegmentP2 room p msg clients).1.finalArtworks.length = 2) := by
  constructor
  · intro room pid msg clients h
    simp [submitSegmentP2, h]
  · intro room p q msg clients hstatus hne hsub hseg
    have hpq : (p == q) = false := by simp [hne]
    cases halg : alGet room.canvasAssignments p with
    | none =>
      simp [submitSegmentP2, hstatus, hsub, hpq, hne, halg, hseg]
    | some i =>
      simp [submitSegmentP2, hstatus, hsub, hpq, hne, halg, hseg]

/-- Concrete room one submission away from completion. -/
def roomFinalP2 : GameRoomP2 :=
  { roomAB with currentSegmentIndex := 3, submittedPlayers := ["P2"] }

/-- Witness for C3 at concrete inputs: a submit against the completed
`roomDoneP2` is a silent no-op, and `P1` finishing segment 3 of
`roomFinalP2` completes the game with 2 final artworks. -/
theorem c3_completed_room_witness :
    submitSegmentP2 roomDoneP2 "P2" msgB ["P1", "P2"] = (roomDoneP2, []) ∧
      (submitSegmentP2 roomFinalP2 "P1" msgA []).1.status = Status.completed ∧
      (submitSegmentP2 roomFinalP2 "P1" msgA []).1.finalArtworks.length = 2 :=
  ⟨c3_completed_room.1 roomDoneP2 "P2" msgB ["P1", "P2"] (by rfl),
    c3_completed_room.2 roomFinalP2 "P1" "P2" msgA [] (by rfl) (by decide)
      (by rfl) (by decide)⟩

/-- C2 (amended): in the `game-handlers.js` submit handler a duplicate
submission is rejected with a single error reply and the room is left
untouched; in the `part_002` handler a duplicate submitter (the only
entry of `submittedPlayers`) is not counted again and triggers no
advance — the segment index, status and assignments are unchanged and
no reply is sent — but the canvas/history writes still run. -/
theorem c2_duplicate_submit :
    (∀ (room : GameRoomGH) (pid : String) (d : DataUrl) (clients : List String),
      room.submittedPlayers.contains pid = true →
      (submitSegmentGH room pid d clients).1 = room ∧
        ∃ t, (submitSegmentGH room pid d clients).2 = [errMsg pid t]) ∧
    (∀ (room : GameRoomP2) (pid : String) (msg : SubmitMsg) (clients : List String),
      room.status = Status.playing →
      room.submittedPlayers = [pid] →
      (submitSegmentP2 room pid msg clients).1.submittedPlayers = [pid] ∧
        (submitSegmentP2 room pid msg clients).1.currentSegmentIndex =
          room.currentSegmentIndex ∧
        (submitSegmentP2 room pid msg clients).1.status = room.status ∧
        (submitSegmentP2 room pid msg clients).1.canvasAssignments =
          room.canvasAssignments ∧
        (submitSegmentP2 room pid msg clients).2 = []) := by
  constructor
  · intro room pid d clients hdup
    have hmem : pid ∈ room.submittedPlayers := by simpa using hdup
    by_cases hd : d = DataUrl.empty
    · constructor
      · simp [submitSegmentGH, hd]
      · exact ⟨"Invalid submission data.", by simp [submitSegmentGH, hd]⟩
    · constructor
      · simp [submitSegmentGH, hd, hmem]
      · exact ⟨"You have already submitted for this segment.",
          by simp [submitSegmentGH, hd, hmem]⟩
  · intro room pid msg clients hstatus hsub
    cases halg : alGet room.canvasAssignments pid with
    | none => simp [submitSegmentP2, hstatus, hsub, halg]
    | some i => simp [submitSegmentP2, hstatus, hsub, halg]

/-- Concrete `game-handlers.js` room in which `P1` already submitted. -/
def roomGH : GameRoomGH :=
  { gameCode := "Q1AB",
    players := ["P1", "P2"],
    playerObjects := [("P1", "Alice"), ("P2", "Bob")],
    playerCount := 2,
    status := GHStatus.inProgress,
    currentSegmentIndex := 0,
    submittedPlayers := ["P1"],
    canvasSegments := [SegEntry.mk 0 (some "P1") (.img 800 600 false) false],
    finalArtwork := none }

/-- Witness for C2 at concrete inputs. -/
theorem c2_duplicate_submit_witness :
    ((submitSegmentGH roomGH "P1" (.img 800 600 false) ["P1", "P2"]).1 = roomGH ∧
      ∃ t, (submitSegmentGH roomGH "P1" (.img 800 600 false) ["P1", "P2"]).2 =
        [errMsg "P1" t]) ∧
      ((submitSegmentP2 { roomAB with submittedPlayers := ["P1"] } "P1" msgB []).1.submittedPlayers =
        ["P1"] ∧
      (submitSegmentP2 { roomAB with submittedPlayers := ["P1"] } "P1" msgB []).1.currentSegmentIndex =
        { roomAB with submittedPlayers := ["P1"] }.currentSegmentIndex ∧
      (submitSegmentP2 { roomAB with submittedPlayers := ["P1"] } "P1" msgB []).1.status =
        { roomAB with submittedPlayers := ["P1"] }.status ∧
      (submitSegmentP2 { roomAB with submittedPlayers := ["P1"] } "P1" msgB []).1.canvasAssignments =
        { roomAB with submittedPlayers := ["P1"] }.canvasAssignments ∧
      (submitSegmentP2 { roomAB with submittedPlayers := ["P1"] } "P1" msgB []).2 = []) :=
  ⟨c2_duplicate_submit.1 roomGH "P1" (.img 800 600 false) ["P1", "P2"] (by rfl),
    c2_duplicate_submit.2 { roomAB with submittedPlayers := ["P1"] } "P1" msgB []
      (by rfl) (by rfl)⟩

/-- C5 (amended): the `part_001` submit handler rejects a submission
whose `segmentIndex` differs from the room's `currentSegmentIndex` with
an error reply and changes no state; the `part_002` handler, by
contrast, never reads the field (see the counterexample). -/
theorem c5_stale_segment (room : GameRoomP1) (pid : String) (d : DataUrl)
    (si : Nat) (clients : List String)
    (hd : d ≠ DataUrl.empty)
    (hsi : room.currentSegmentIndex ≠ si) :
    submitSegmentP1 room pid d (some si) clients =
      (room, [errMsg pid "It is not the correct segment to submit for."]) := by
  simp [submitSegmentP1, hd, hsi]

/-- Concrete `part_001` room at segment 1. -/
def roomP1 : GameRoomP1 :=
  { gameCode := "Q1",
    players := ["P1", "P2"],
    playerObjects := [("P1", "Alice"), ("P2", "Bob")],
    playerCount := 2,
    currentTurn := 0,
    canvasSegments := [],
    currentSegmentIndex := 1,
    submittedPlayers := [],
    status := GHStatus.inProgress,
    finalArtwork := none }

/-- Witness for C5: submitting for segment 0 while `roomP1` is at
segment 1 yields exactly the stale-segment error and no change. -/
theorem c5_stale_segment_witness :
    submitSegmentP1 roomP1 "P1" (.img 800 600 false) (some 0) [] =
      (roomP1, [errMsg "P1" "It is not the correct segment to submit for."]) :=
  c5_stale_segment roomP1 "P1" (.img 800 600 false) 0 [] (by decide) (by decide)

/-- Shape of the `part_002` submit output: either nothing is sent, or
the `gameUpdate` view of the returned room is broadcast to every
connection of the room. -/
theorem submitP2_msgs_shape (room : GameRoomP2) (pid : String)
    (msg : SubmitMsg) (clients : List String) :
    (submitSegmentP2 room pid msg clients).2 = [] ∨
      (submitSegmentP2 room pid msg clients).2 =
        clients.map (gameUpdateMsgP2 (submitSegmentP2 room pid msg clients).1) := by
  simp only [submitSegmentP2]
  split
  · exact Or.inl rfl
  · split
    · split
      · exact Or.inr rfl
      · exact Or.inl rfl
    · split
      · exact Or.inr rfl
      · exact Or.inl rfl

/-- Shape of the `part_002` join output: nothing, the reconnect replies
for the stored room, or the `gameJoined` broadcast of the stored room. -/
theorem joinP2_msgs_shape (roomOpt : Option GameRoomP2) (pid pname : String)
    (clients : List String) :
    (joinGameP2 roomOpt pid pname clients).2 = [] ∨
      (∃ r, (joinGameP2 roomOpt pid pname clients).1 = some r ∧
        (joinGameP2 roomOpt pid pname clients).2 =
          reconnectedMsgP2 r pid ::
            (clients.filter (fun c => c != pid)).map
              (fun _ => playerReconnectedMsgP2 r pid)) ∨
      (∃ r, (joinGameP2 roomOpt pid pname clients).1 = some r ∧
        (joinGameP2 roomOpt pid pname clients).2 =
          clients.map (gameJoinedMsgP2 r)) := by
  cases roomOpt with
  | none => exact Or.inl rfl
  | some room =>
    simp only [joinGameP2, joinNewP2]
    split
    · exact Or.inl rfl
    · split
      · split
        · exact Or.inr (Or.inl ⟨_, rfl, rfl⟩)
        · exact Or.inr (Or.inr ⟨_, rfl, rfl⟩)
      · exact Or.inr (Or.inr ⟨_, rfl, rfl⟩)

/-- C6 (amended): in every view emitted by the `part_002` join handler
the `canDraw` flag is either absent or the bare negation of membership
in `submittedPlayers` of the updated room — the room status is not
consulted, so a waiting single-member room receives `canDraw = true`
(see the counterexample); only the post-advance `gameUpdate` broadcast
of the submit handler additionally requires the room not completed. -/
theorem c6_canDraw_flag :
    (∀ (roomOpt : Option GameRoomP2) (pid pname : String) (clients : List String)
        (r : GameRoomP2) (m : OutMsg),
      (joinGameP2 roomOpt pid pname clients).1 = some r →
      m ∈ (joinGameP2 roomOpt pid pname clients).2 →
      m.canDraw = none ∨
        m.canDraw = some (!(r.submittedPlayers.contains m.recipient))) ∧
    (∀ (room : GameRoomP2) (pid : String) (msg : SubmitMsg) (clients : List String)
        (m : OutMsg),
      m ∈ (submitSegmentP2 room pid msg clients).2 →
      m.canDraw = some
        (!((submitSegmentP2 room pid msg clients).1.status == Status.completed) &&
          !((submitSegmentP2 room pid msg clients).1.submittedPlayers.contains
            m.recipient))) := by
  constructor
  · intro roomOpt pid pname clients r m h1 h2
    rcases joinP2_msgs_shape roomOpt pid pname clients with hs | ⟨r2, hr2, hs⟩ | ⟨r2, hr2, hs⟩
    · rw [hs] at h2
      exact absurd h2 (List.not_mem_nil m)
    · rw [h1] at hr2
      injection hr2 with hr2
      subst hr2
      rw [hs] at h2
      rcases List.mem_cons.mp h2 with rfl | hmem
      · right
        simp [reconnectedMsgP2]
      · rcases List.mem_map.mp hmem with ⟨c, hcm, rfl⟩
        left
        simp [playerReconnectedMsgP2]
    · rw [h1] at hr2
      injection hr2 with hr2
      subst hr2
      rw [hs] at h2
      rcases List.mem_map.mp h2 with ⟨c, hcm, rfl⟩
      right
      simp [gameJoinedMsgP2]
  · intro room pid msg clients m hm
    rcases submitP2_msgs_shape room pid msg clients with hs | hs
    · rw [hs] at hm
      exact absurd hm (List.not_mem_nil m)
    · rw [hs] at hm
      rcases List.mem_map.mp hm with ⟨c, hcm, rfl⟩
      simp [gameUpdateMsgP2]

/-- Room obtained when `P2` joins the waiting room of `P1`. -/
def roomStartedP2 : GameRoomP2 :=
  { roomWaitP2 with
    players := ["P1", "P2"],
    playerObjects := [⟨"P1", "Alice", false, 0⟩, ⟨"P2", "Bob", false, 0⟩],
    playerCount := 2,
    status := Status.playing,
    canvasAssignments := [("P1", 0), ("P2", 1)] }

/-- Witness for C6 at concrete inputs: a view of the join broadcast and
a view of the post-advance broadcast. -/
theorem c6_canDraw_flag_witness :
    ((gameJoinedMsgP2 roomStartedP2 "P1").canDraw = none ∨
      (gameJoinedMsgP2 roomStartedP2 "P1").canDraw =
        some (!(roomStartedP2.submittedPlayers.contains
          (gameJoinedMsgP2 roomStartedP2 "P1").recipient))) ∧
      (gameUpdateMsgP2 (submitSegmentP2 roomC4 "P1" msgA ["P1", "P2"]).1 "P1").canDraw =
        some
          (!((submitSegmentP2 roomC4 "P1" msgA ["P1", "P2"]).1.status ==
              Status.completed) &&
            !((submitSegmentP2 roomC4 "P1" msgA ["P1", "P2"]).1.submittedPlayers.contains
              (gameUpdateMsgP2 (submitSegmentP2 roomC4 "P1" msgA ["P1", "P2"]).1 "P1").recipient)) :=
  ⟨c6_canDraw_flag.1 (some roomWaitP2) "P2" "Bob" ["P1", "P2"] roomStartedP2
      (gameJoinedMsgP2 roomStartedP2 "P1") (by rfl) (by decide),
    c6_canDraw_flag.2 roomC4 "P1" msgA ["P1", "P2"]
      (gameUpdateMsgP2 (submitSegmentP2 roomC4 "P1" msgA ["P1", "P2"]).1 "P1")
      (by decide)⟩

/-- The disconnected version of a player record: marked disconnected
with the attempt counter bumped by exactly one. -/
def bumpPO (po : PlayerObj) : PlayerObj :=
  { po with isDisconnected := true, reconnectAttempts := po.reconnectAttempts + 1 }

/-- Marking a player disconnected turns exactly their first record into
the disconnected version with the attempt counter bumped by one. -/
theorem find_markDisconnected (l : List PlayerObj) (pid : String)
    (po : PlayerObj) (h : l.find? (fun p => p.id == pid) = some po) :
    (markDisconnected l pid).find? (fun p => p.id == pid) =
      some (bumpPO po) := by
  induction l with
  | nil => simp at h
  | cons x xs ih =>
    by_cases hx : x.id = pid
    · rw [List.find?_cons_of_pos _ (by simp [hx])] at h
      injection h with h
      subst h
      simp only [markDisconnected, List.map_cons]
      rw [if_pos (by simp [hx])]
      exact List.find?_cons_of_pos _ (by simp [hx])
    · rw [List.find?_cons_of_neg _ (by simp [hx])] at h
      simp only [markDisconnected, List.map_cons] at ih ⊢
      rw [if_neg (by simp [hx])]
      rw [List.find?_cons_of_neg _ (by simp [hx])]
      exact ih h

/-- The first record matching an id that is also disconnected is found
by the combined predicate of the grace-timer callback. -/
theorem find_disconnected_combined (l : List PlayerObj) (pid : String)
    (po : PlayerObj) (h : l.find? (fun p => p.id == pid) = some po)
    (hd : po.isDisconnected = true) :
    l.find? (fun p => p.id == pid && p.isDisconnected) = some po := by
  induction l with
  | nil => simp at h
  | cons x xs ih =>
    by_cases hx : x.id = pid
    · rw [List.find?_cons_of_pos _ (by simp [hx])] at h
      injection h with h
      subst h
      exact List.find?_cons_of_pos _ (by simp [hx, hd])
    · rw [List.find?_cons_of_neg _ (by simp [hx])] at h
      rw [List.find?_cons_of_neg _ (by simp [hx])]
      exact ih h

/-- Filtering an element out of a list makes `contains` false for it. -/
theorem contains_filter_ne (l : List String) (pid : String) :
    (l.filter (fun q => q != pid)).contains pid = false := by
  induction l with
  | nil => rfl
  | cons x xs ih =>
    by_cases hx : x = pid
    · simp [List.filter_cons, hx, ih]
    · simp [List.filter_cons, hx, ih, Ne.symm hx]

/-- C10: on a transport close of a member of a waiting or playing
`part_002` room the player is only marked disconnected with
`reconnectAttempts` bumped by exactly 1 and a grace timer is started
(players, status, submissions and segment index are untouched); when
the timer fires with the counter still below 5 the stored room is left
exactly as it was (nothing removed, not deleted, not reset); the
removal and the reset to `waiting` happen only when the timer fires
with the counter at 5 or more. -/
theorem c10_grace_period :
    (∀ (room : GameRoomP2) (pid : String) (clients : List String) (po : PlayerObj),
      room.status ≠ Status.completed →
      findPO room pid = some po →
      (handleCloseP2 room pid clients).timerStarted = true ∧
        ∃ r1, (handleCloseP2 room pid clients).room = some r1 ∧
          findPO r1 pid = some (bumpPO po) ∧
          r1.players = room.players ∧
          r1.status = room.status ∧
          r1.submittedPlayers = room.submittedPlayers ∧
          r1.currentSegmentIndex = room.currentSegmentIndex) ∧
    (∀ (r : GameRoomP2) (pid : String) (clients : List String) (po : PlayerObj),
      findPO r pid = some po →
      po.isDisconnected = true →
      po.reconnectAttempts < 5 →
      graceTimerFireP2 (some r) pid clients = (some r, [])) ∧
    (∀ (r : GameRoomP2) (pid : String) (clients : List String) (po : PlayerObj),
      findPO r pid = some po →
      po.isDisconnected = true →
      po.reconnectAttempts ≥ 5 →
      ∀ r2, (graceTimerFireP2 (some r) pid clients).1 = some r2 →
        r2.players.contains pid = false ∧
          r2.status = Status.waiting ∧
          r2.currentSegmentIndex = 0 ∧
          r2.submittedPlayers = []) := by
  refine ⟨?_, ?_, ?_⟩
  · intro room pid clients po hst hfind
    refine ⟨by simp [handleCloseP2, hst], ?_⟩
    refine ⟨{ room with playerObjects := markDisconnected room.playerObjects pid },
      by simp [handleCloseP2, hst], ?_, rfl, rfl, rfl, rfl⟩
    exact find_markDisconnected room.playerObjects pid po hfind
  · intro r pid clients po hfind hd hlt
    simp only [graceTimerFireP2,
      find_disconnected_combined r.playerObjects pid po hfind hd]
    rw [if_neg (by omega)]
  · intro r pid clients po hfind hd hge r2 h2
    simp only [graceTimerFireP2,
      find_disconnected_combined r.playerObjects pid po hfind hd] at h2
    rw [if_pos hge] at h2
    by_cases h0 :
        (r.players.filter (fun q => q != pid)).length = 0
    · simp only [h0, if_pos] at h2
      simp at h2
    · simp only [if_neg h0] at h2
      injection h2 with h2
      subst h2
      exact ⟨contains_filter_ne r.players pid, rfl, rfl, rfl⟩

/-- Concrete room in which `P1` is disconnected with 1 attempt. -/
def roomDisc1 : GameRoomP2 :=
  { roomAB with playerObjects :=
      [⟨"P1", "Alice", true, 1⟩, ⟨"P2", "Bob", false, 0⟩] }

/-- Concrete room in which `P1` is disconnected with 5 attempts. -/
def roomDisc5 : GameRoomP2 :=
  { roomAB with playerObjects :=
      [⟨"P1", "Alice", true, 5⟩, ⟨"P2", "Bob", false, 0⟩] }

/-- Room left after the grace timer evicts `P1` from `roomDisc5`. -/
def roomReset5 : GameRoomP2 :=
  { gameCode := "AB12",
    players := ["P2"],
    playerObjects := [⟨"P2", "Bob", false, 0⟩],
    playerCount := 1,
    status := Status.waiting,
    currentSegmentIndex := 0,
    submittedPlayers := [],
    activeCanvasStates := [createBlankCanvas 1080 1920, createBlankCanvas 1080 1920],
    canvasAssignments := [],
    segmentHistory := [],
    currentSegmentSubmissions := [],
    finalArtworks := [] }

/-- Witness for C10 at concrete inputs: close bumps the counter of `P1`
by one; an early timer fire (1 attempt) changes nothing; a timer fire
at 5 attempts removes `P1` and resets the room to waiting. -/
theorem c10_grace_period_witness :
    ((handleCloseP2 roomAB "P1" ["P2"]).timerStarted = true ∧
      ∃ r1, (handleCloseP2 roomAB "P1" ["P2"]).room = some r1 ∧
        findPO r1 "P1" = some (bumpPO ⟨"P1", "Alice", false, 0⟩) ∧
        r1.players = roomAB.players ∧
        r1.status = roomAB.status ∧
        r1.submittedPlayers = roomAB.submittedPlayers ∧
        r1.currentSegmentIndex = roomAB.currentSegmentIndex) ∧
      graceTimerFireP2 (some roomDisc1) "P1" ["P2"] = (some roomDisc1, []) ∧
      (roomReset5.players.contains "P1" = false ∧
        roomReset5.status = Status.waiting ∧
        roomReset5.currentSegmentIndex = 0 ∧
        roomReset5.submittedPlayers = []) :=
  ⟨c10_grace_period.1 roomAB "P1" ["P2"] ⟨"P1", "Alice", false, 0⟩
      (by decide) (by rfl),
    c10_grace_period.2.1 roomDisc1 "P1" ["P2"] ⟨"P1", "Alice", true, 1⟩
      (by rfl) (by rfl) (by decide),
    c10_grace_period.2.2 roomDisc5 "P1" ["P2"] ⟨"P1", "Alice", true, 5⟩
      (by rfl) (by rfl) (by decide) roomReset5 (by rfl)⟩

/-- The loading loop of the `canvas-utils.js` combine throws as soon as
the input contains an undecodable entry. -/
theorem loadAllCU_error (urls : List DataUrl)
    (h : ∃ u ∈ urls, u.isBad = true) : loadAllCU urls = .error () := by
  induction urls with
  | nil => simp at h
  | cons u rest ih =>
    rcases h with ⟨v, hv, hbad⟩
    rcases List.mem_cons.mp hv with rfl | hvrest
    · cases v with
      | empty => simp [DataUrl.isBad] at hbad
      | img w hh b => simp [DataUrl.isBad] at hbad
      | bad n => rfl
    · cases u with
      | empty => simpa [loadAllCU] using ih ⟨v, hvrest, hbad⟩
      | img w hh b =>
        simp only [loadAllCU, ih ⟨v, hvrest, hbad⟩]
      | bad n => rfl

/-- The `part_007` loading loop yields one image per input slot. -/
theorem loadAllP7_length (urls : List DataUrl) :
    (loadAllP7 urls).length = urls.length := by
  induction urls with
  | nil => rfl
  | cons u rest ih => cases u <;> simp [loadAllP7, ih]

/-- The `part_007` drawing loop emits one draw call per image. -/
theorem drawStackP7_length (imgs : List P7Img) (maxW y : Nat) :
    (drawStackP7 imgs maxW y).length = imgs.length := by
  induction imgs generalizing y with
  | nil => rfl
  | cons i rest ih =>
    simp only [drawStackP7]
    split <;> simp [ih]

/-- Positional correspondence of the `part_007` combine: an undecodable
input slot is drawn as a non-blank 150-pixel-high placeholder. -/
theorem p7_placeholder_forall2 (urls : List DataUrl) (maxW y : Nat) :
    List.Forall₂ (fun u d => u.isBad = true → d.h = 150 ∧ d.blank = false)
      urls (drawStackP7 (loadAllP7 urls) maxW y) := by
  induction urls generalizing y with
  | nil => exact List.Forall₂.nil
  | cons u rest ih =>
    cases u with
    | empty =>
      simp only [loadAllP7, drawStackP7]
      exact List.Forall₂.cons (by simp [DataUrl.isBad]) (ih _)
    | img w hh b =>
      simp only [loadAllP7, drawStackP7]
      split
      · exact List.Forall₂.cons (by simp [DataUrl.isBad]) (ih _)
      · exact List.Forall₂.cons (by simp [DataUrl.isBad]) (ih _)
    | bad n =>
      simp only [loadAllP7, drawStackP7]
      split
      · exact List.Forall₂.cons (fun _ => ⟨rfl, rfl⟩) (ih _)
      · simp at *

/-- C7 (amended): the `combineCanvases` of `src/canvas-utils.js` throws
whenever some input fails to decode, whereas the `combineCanvases` of
`part_007` has no throw path: on any non-empty input it returns a
composite with exactly one draw per input slot, and each undecodable
slot is painted as a 150-pixel-high non-blank (red) placeholder rather
than blocking the combine. -/
theorem c7_combine_total :
    (∀ urls : List DataUrl, (∃ u ∈ urls, u.isBad = true) →
      combineCanvasesCU urls = Except.error ()) ∧
    (∀ urls : List DataUrl, urls ≠ [] →
      ∃ c, combineCanvasesP7 urls = CombineResult.composite c ∧
        c.draws.length = urls.length ∧
        List.Forall₂ (fun u d => u.isBad = true → d.h = 150 ∧ d.blank = false)
          urls c.draws) := by
  constructor
  · intro urls h
    obtain ⟨v, hv, hbad⟩ := h
    obtain ⟨u, rest, rfl⟩ := List.exists_cons_of_ne_nil
      (List.ne_nil_of_mem hv)
    simp only [combineCanvasesCU, List.isEmpty_cons, Bool.false_eq_true,
      if_false, loadAllCU_error (u :: rest) ⟨v, hv, hbad⟩]
  · intro urls h
    obtain ⟨u, rest, rfl⟩ := List.exists_cons_of_ne_nil h
    cases u with
    | empty =>
      refine ⟨_, by simp only [combineCanvasesP7, loadAllP7]; rfl, ?_, ?_⟩
      · simp [drawStackP7_length, loadAllP7_length]
      · exact p7_placeholder_forall2 (DataUrl.empty :: rest) _ 0
    | img w hh b =>
      refine ⟨_, by simp only [combineCanvasesP7, loadAllP7]; rfl, ?_, ?_⟩
      · simp [drawStackP7_length, loadAllP7_length]
      · exact p7_placeholder_forall2 (DataUrl.img w hh b :: rest) _ 0
    | bad n =>
      refine ⟨_, by simp only [combineCanvasesP7, loadAllP7]; rfl, ?_, ?_⟩
      · simp [drawStackP7_length, loadAllP7_length]
      · exact p7_placeholder_forall2 (DataUrl.bad n :: rest) _ 0

/-- Witness for C7 at a concrete input containing an undecodable entry:
the `canvas-utils.js` combine throws while the `part_007` combine still
returns a composite covering both slots. -/
theorem c7_combine_total_witness :
    combineCanvasesCU [createBlankCanvas 800 600, DataUrl.bad 7] =
        Except.error () ∧
      ∃ c, combineCanvasesP7 [createBlankCanvas 800 600, DataUrl.bad 7] =
          CombineResult.composite c ∧
        c.draws.length = [createBlankCanvas 800 600, DataUrl.bad 7].length ∧
        List.Forall₂ (fun u d => u.isBad = true → d.h = 150 ∧ d.blank = false)
          [createBlankCanvas 800 600, DataUrl.bad 7] c.draws :=
  ⟨c7_combine_total.1 [createBlankCanvas 800 600, DataUrl.bad 7]
      ⟨DataUrl.bad 7, by decide, rfl⟩,
    c7_combine_total.2 [createBlankCanvas 800 600, DataUrl.bad 7] (by decide)⟩

/-- Specification-side layout of a vertical stack (the wording of the
spec: images drawn in input order, each at the running offset, stretched
to the composite width): used only to compare the source-translated
combine against the specified layout. -/
def stackSpecC8 : List DataUrl → Nat → Nat → List DrawOp
  | [], _, _ => []
  | u :: rest, mw, y => ⟨y, mw, u.h, u.isBlankD⟩ :: stackSpecC8 rest mw (y + u.h)

/-- The image record decoded from a decodable data URL. -/
def toImgD (u : DataUrl) : ImgData := ⟨u.w, u.h, u.isBlankD⟩

/-- On all-decodable input the `canvas-utils.js` loading loop succeeds
with exactly the decoded images in order. -/
theorem loadAllCU_ok (urls : List DataUrl)
    (h : ∀ u ∈ urls, u.isImg = true) :
    loadAllCU urls = .ok (urls.map toImgD) := by
  induction urls with
  | nil => rfl
  | cons u rest ih =>
    cases u with
    | empty => simpa [DataUrl.isImg] using h DataUrl.empty (by simp)
    | img w hh b =>
      simp only [loadAllCU, ih (fun v hv => h v (List.mem_cons_of_mem _ hv)),
        List.map_cons]
      rfl
    | bad n => simpa [DataUrl.isImg] using h (DataUrl.bad n) (by simp)

/-- The `canvas-utils.js` drawing loop on decoded images realizes the
specified stacked layout. -/
theorem drawStackCU_spec (urls : List DataUrl) (mw y : Nat) :
    drawStackCU (urls.map toImgD) mw y = stackSpecC8 urls mw y := by
  induction urls generalizing y with
  | nil => rfl
  | cons u rest ih => simp [drawStackCU, stackSpecC8, toImgD, ih]

/-- A stack of blank images is blank. -/
theorem stackSpecC8_blank (urls : List DataUrl)
    (h : ∀ u ∈ urls, u.isBlankD = true) (mw y : Nat) :
    (stackSpecC8 urls mw y).all
      (fun d => d.blank || d.w == 0 || d.h == 0) = true := by
  induction urls generalizing y with
  | nil => rfl
  | cons u rest ih =>
    simp only [stackSpecC8, List.all_cons]
    rw [h u (by simp)]
    simpa using ih (fun v hv => h v (List.mem_cons_of_mem _ hv)) (y + u.h)

/-- C8: on every non-empty all-decodable input the `canvas-utils.js`
combine returns a composite whose width is the maximum input width and
whose height is the sum of the input heights, whose draw calls realize
exactly the specified vertical stack in input order, and which is blank
whenever every input is blank. -/
theorem c8_combine_stacks (urls : List DataUrl) (h1 : urls ≠ [])
    (h2 : ∀ u ∈ urls, u.isImg = true) :
    ∃ c, combineCanvasesCU urls = .ok (.composite c) ∧
      c.width = urls.foldl (fun m u => max m u.w) 0 ∧
      c.height = urls.foldl (fun s u => s + u.h) 0 ∧
      c.draws = stackSpecC8 urls c.width 0 ∧
      ((∀ u ∈ urls, u.isBlankD = true) → c.isBlank = true) := by
  obtain ⟨u, rest, rfl⟩ := List.exists_cons_of_ne_nil h1
  refine ⟨⟨((u :: rest).map toImgD).foldl (fun m i => max m i.w) 0,
    ((u :: rest).map toImgD).foldl (fun s i => s + i.h) 0,
    drawStackCU ((u :: rest).map toImgD)
      (((u :: rest).map toImgD).foldl (fun m i => max m i.w) 0) 0⟩,
    ?_, ?_, ?_, ?_, ?_⟩
  · simp only [combineCanvasesCU, List.isEmpty_cons, Bool.false_eq_true,
      if_false, loadAllCU_ok (u :: rest) h2]
    rfl
  · simp [List.foldl_map, toImgD]
  · simp [List.foldl_map, toImgD]
  · exact drawStackCU_spec (u :: rest) _ 0
  · intro hblank
    simp only [Composite.isBlank]
    rw [drawStackCU_spec (u :: rest) _ 0]
    exact stackSpecC8_blank (u :: rest) hblank _ 0

/-- Witness for C8: stacking two blank canvases yields a blank 800x1200
composite laid out as the specified stack. -/
theorem c8_combine_stacks_witness :
    ∃ c, combineCanvasesCU [createBlankCanvas 800 600, createBlankCanvas 800 600] =
        .ok (.composite c) ∧
      c.width = [createBlankCanvas 800 600, createBlankCanvas 800 600].foldl
        (fun m u => max m u.w) 0 ∧
      c.height = [createBlankCanvas 800 600, createBlankCanvas 800 600].foldl
        (fun s u => s + u.h) 0 ∧
      c.draws = stackSpecC8 [createBlankCanvas 800 600, createBlankCanvas 800 600]
        c.width 0 ∧
      ((∀ u ∈ [createBlankCanvas 800 600, createBlankCanvas 800 600],
        u.isBlankD = true) → c.isBlank = true) :=
  c8_combine_stacks [createBlankCanvas 800 600, createBlankCanvas 800 600]
    (by decide) (by decide)
